import Mathlib

/-!
Shallow embedding of the Pattern Detection & News-Correlation Engine
(`app/pattern_detection.py` and `app/correlation_node.py`, with the record
shapes of `app/state.py`).

Modelling conventions:
* Python floats are modelled as rationals (`ℚ`); the numeric behaviour the
  specification describes is threshold comparison and clamping, not binary
  floating-point rounding.
* Free-text presentation fields (`notes` on a pattern signal, `summary` on a
  correlated insight, `reasoning` on a sentiment) are produced by f-string
  formatting and consumed by no algorithmic code path; they are omitted from
  the records here.
* A Python function that can raise an uncaught exception is embedded with an
  `Option` result: `none` models the exception escaping the call.
* Calendar dates: `datetime.strptime(...).date()` and date subtraction
  (`(d1 - d2).days`) are embedded by an explicit Gregorian-calendar model
  (`Date`, `toOrdinal`) and a character-level parser that follows the three
  accepted formats in the order the source tries them.
-/

namespace Capstone

/-! ## Calendar dates (`datetime.date` and `_parse_any_date`) -/

/-- A calendar date, as produced by `datetime.strptime(s, fmt).date()`. -/
structure Date where
  year : Nat
  month : Nat
  day : Nat
  deriving DecidableEq, Inhabited

/-- Gregorian leap-year rule used by `datetime`. -/
def isLeap (y : Nat) : Bool :=
  y % 4 = 0 && (y % 100 ≠ 0 || y % 400 = 0)

/-- Number of days in a month, as validated by the `datetime` constructor. -/
def daysInMonth (y m : Nat) : Nat :=
  if m = 2 then (if isLeap y then 29 else 28)
  else if m = 4 ∨ m = 6 ∨ m = 9 ∨ m = 11 then 30
  else 31

/-- Days in year `y` strictly before month `m` (1-based). -/
def daysBeforeMonth (y m : Nat) : Nat :=
  (match m with
   | 1 => 0 | 2 => 31 | 3 => 59 | 4 => 90 | 5 => 120 | 6 => 151
   | 7 => 181 | 8 => 212 | 9 => 243 | 10 => 273 | 11 => 304 | _ => 334)
  + (if 2 < m ∧ isLeap y then 1 else 0)

/-- Proleptic Gregorian ordinal of a date (`date.toordinal` in Python):
day 1 is 0001-01-01.  Date subtraction `(d1 - d2).days` is the difference of
ordinals. -/
def toOrdinal (d : Date) : Nat :=
  365 * (d.year - 1) + ((d.year - 1) / 4 - (d.year - 1) / 100) + (d.year - 1) / 400
    + daysBeforeMonth d.year d.month + d.day

/-- `(d1 - d2).days` for two `datetime.date` values. -/
def dateDiffDays (d1 d2 : Date) : Int :=
  (toOrdinal d1 : Int) - (toOrdinal d2 : Int)

/-- Numeric value of a decimal digit character. -/
def digitVal (c : Char) : Nat := c.toNat - 48

/-- `strptime` `%Y`: exactly four decimal digits. -/
def parseYear4 : List Char → Option (Nat × List Char)
  | a :: b :: c :: d :: rest =>
    if a.isDigit && b.isDigit && c.isDigit && d.isDigit then
      some (digitVal a * 1000 + digitVal b * 100 + digitVal c * 10 + digitVal d, rest)
    else none
  | _ => none

/-- `strptime` one-or-two-digit numeric field (`%m`, `%d`, `%H`, `%M`, `%S`).
Two leading digits must form a value in `[lo2, hi2]`; a single digit must be
in `[lo1, 9]`.  (When two digits are present but out of range the overall
format fails, because the character after the field in every accepted format
is a non-digit literal, so the regex cannot recover by matching one digit.) -/
def parseField2or1 (lo2 hi2 lo1 : Nat) : List Char → Option (Nat × List Char)
  | a :: b :: rest =>
    if a.isDigit && b.isDigit then
      let v := digitVal a * 10 + digitVal b
      if lo2 ≤ v ∧ v ≤ hi2 then some (v, rest) else none
    else if a.isDigit then
      if lo1 ≤ digitVal a then some (digitVal a, b :: rest) else none
    else none
  | [a] =>
    if a.isDigit ∧ lo1 ≤ digitVal a then some (digitVal a, []) else none
  | [] => none

/-- The common `%Y-%m-%d` prefix of all three accepted formats. -/
def parseDatePrefix (cs : List Char) : Option (Date × List Char) :=
  match parseYear4 cs with
  | none => none
  | some (y, r1) =>
    match r1 with
    | '-' :: r2 =>
      match parseField2or1 1 12 1 r2 with
      | none => none
      | some (m, r3) =>
        match r3 with
        | '-' :: r4 =>
          match parseField2or1 1 31 1 r4 with
          | none => none
          | some (d, r5) => some (⟨y, m, d⟩, r5)
        | _ => none
    | _ => none

/-- The `Thh:mm:ss` tail of the timestamp formats; the parsed time is
discarded by `.date()` but must be well-formed for the format to match. -/
def parseTimeTail : List Char → Option (List Char)
  | 'T' :: r1 =>
    match parseField2or1 0 23 0 r1 with
    | none => none
    | some (_, ':' :: r2) =>
      match parseField2or1 0 59 0 r2 with
      | none => none
      | some (_, ':' :: r3) =>
        match parseField2or1 0 59 0 r3 with
        | none => none
        | some (_, r4) => some r4
      | some _ => none
    | some _ => none
  | _ => none

/-- `datetime` constructor validation: year within `MINYEAR..MAXYEAR` and the
day within the month's length (month and day lower bounds are enforced by the
field regexes). -/
def mkValidDate (d : Date) : Option Date :=
  if 1 ≤ d.year ∧ d.day ≤ daysInMonth d.year d.month then some d else none

/-- `_parse_any_date` (`app/correlation_node.py`, lines 18-40): try
`%Y-%m-%d`, then `%Y-%m-%dT%H:%M:%SZ`, then `%Y-%m-%dT%H:%M:%S`; the first
format that fully matches (and passes constructor validation) wins; otherwise
`None`.  All three formats share the date prefix, so the three attempts are
folded into one pass over the remainder. -/
def _parse_any_date (s : String) : Option Date :=
  if s = "" then none
  else
    match parseDatePrefix s.toList with
    | none => none
    | some (d, rest) =>
      match rest with
      | [] => mkValidDate d
      | 'T' :: _ =>
        match parseTimeTail rest with
        | some [] => mkValidDate d
        | some ['Z'] => mkValidDate d
        | _ => none
      | _ => none

/-! ## Records (`app/state.py`) -/

/-- `PriceBar`: basic OHLCV data for one trading day. -/
structure PriceBar where
  date : String
  «open» : ℚ
  high : ℚ
  low : ℚ
  close : ℚ
  volume : Int
  deriving DecidableEq, Inhabited

/-- `Article`: raw news article data (free-text bodies kept as strings). -/
structure Article where
  id : String
  ticker : String
  title : String
  url : String
  published_at : String
  source : String
  deriving DecidableEq, Inhabited

/-- `ArticleSentiment`: sentiment + events for one article (the `reasoning`
free-text field is omitted). -/
structure ArticleSentiment where
  article_id : String
  sentiment : String
  confidence : ℚ
  event_tags : List String
  impact_score : ℚ
  deriving DecidableEq, Inhabited

/-- `PatternSignal`: a detected technical pattern (the `notes` free-text
field is omitted). -/
structure PatternSignal where
  name : String
  label : String
  start_date : String
  end_date : String
  confidence : ℚ
  direction : String
  deriving DecidableEq, Inhabited

/-- `CorrelatedInsight`: link between a news event and a technical pattern
(the `summary` free-text field is omitted). -/
structure CorrelatedInsight where
  article_id : String
  pattern_name : String
  correlation_confidence : ℚ
  lag_days : Int
  deriving DecidableEq, Inhabited

/-! ## Pattern detection (`app/pattern_detection.py`) -/

/-- `_compute_return` (lines 10-18): simple total return over the period;
`0.0` for fewer than two bars or a zero first close. -/
def _compute_return : List PriceBar → ℚ
  | [] => 0
  | [_] => 0
  | p0 :: p1 :: rest =>
    let start := p0.close
    let «end» := (rest.getLastD p1).close
    if start = 0 then 0 else («end» - start) / start

/-- Python `min` over a nonempty list, `cs.foldl min c` for `c :: cs`. -/
def listMin (c : ℚ) (cs : List ℚ) : ℚ := cs.foldl min c

/-- Python `max` over a nonempty list. -/
def listMax (c : ℚ) (cs : List ℚ) : ℚ := cs.foldl max c

/-- Python `list.index(x)`: index of the first occurrence of `x`.  (On a
missing element Python raises `ValueError`; here it is only ever applied to
the minimum/maximum of the list itself, which is always present.) -/
def index_of (x : ℚ) : List ℚ → Nat
  | [] => 0
  | c :: cs => if c = x then 0 else index_of x cs + 1

/-- `_find_local_extrema` (lines 21-32): indices of the first occurrence of
the minimum and of the maximum close; `(None, None)` on an empty series. -/
def _find_local_extrema (prices : List PriceBar) : Option Nat × Option Nat :=
  match prices.map (fun p => p.close) with
  | [] => (none, none)
  | c :: cs =>
    (some (index_of (listMin c cs) (c :: cs)), some (index_of (listMax c cs) (c :: cs)))

/-- The trend / breakout signal of `detect_patterns` (lines 57-102), as a
function of the total return and the first/last bar dates. -/
def _trend_signal (total_ret : ℚ) (start_date end_date : String) : PatternSignal :=
  if total_ret ≥ 5 / 100 then
    { name := "bullish_breakout", label := "Bullish Breakout / Uptrend",
      start_date := start_date, end_date := end_date,
      confidence := min 1 (|total_ret| * 5), direction := "bullish" }
  else if total_ret ≤ -(5 / 100) then
    { name := "bearish_breakdown", label := "Bearish Breakdown / Downtrend",
      start_date := start_date, end_date := end_date,
      confidence := min 1 (|total_ret| * 5), direction := "bearish" }
  else
    { name := "sideways_range", label := "Sideways / Range-Bound",
      start_date := start_date, end_date := end_date,
      confidence := 6 / 10, direction := "neutral" }

/-- The swing part of `detect_patterns` (lines 104-127).  `some []` means no
swing signal, `some [s]` a single swing signal; `none` models the uncaught
`ZeroDivisionError` of `swing_ret = (high - low) / low` when the minimum
close is `0` (the indices returned by `_find_local_extrema` are always in
range, so `getD` never takes its default). -/
def _swing_signals (prices : List PriceBar) : Option (List PatternSignal) :=
  match _find_local_extrema prices with
  | (some min_idx, some max_idx) =>
    if min_idx ≠ max_idx then
      let low_bar := prices.getD min_idx default
      let high_bar := prices.getD max_idx default
      if low_bar.close = 0 then none
      else
        let swing_ret := (high_bar.close - low_bar.close) / low_bar.close
        if swing_ret > 8 / 100 then
          -- `swing_name` is "strong_up_swing" iff `min_idx < max_idx`, and the
          -- direction is "bullish" iff the name is "strong_up_swing".
          some [{ name := if min_idx < max_idx then "strong_up_swing" else "strong_down_swing",
                  label := "Strong Price Swing",
                  start_date := low_bar.date, end_date := high_bar.date,
                  confidence := min 1 (|swing_ret| * 4),
                  direction := if min_idx < max_idx then "bullish" else "bearish" }]
        else some []
    else some []
  | _ => some []

/-- `detect_patterns` (lines 35-129).  Fewer than two bars returns the empty
list; otherwise the trend signal is appended first and the swing signal (if
any) second.  `none` models the `ZeroDivisionError` escaping the call (the
exception is raised before the list is returned, so nothing is returned in
that case). -/
def detect_patterns (prices : List PriceBar) : Option (List PatternSignal) :=
  match prices with
  | [] => some []
  | [_] => some []
  | p0 :: p1 :: rest =>
    match _swing_signals (p0 :: p1 :: rest) with
    | none => none
    | some swing =>
      some (_trend_signal (_compute_return (p0 :: p1 :: rest))
              p0.date ((rest.getLastD p1).date) :: swing)

/-! ## Correlation scoring (`app/correlation_node.py`) -/

/-- `_sentiment_direction` (lines 43-51): map a sentiment label to a
directional bias.  Any label other than "positive"/"negative" (in particular
"neutral") maps to "neutral". -/
def _sentiment_direction (sentiment : String) : String :=
  if sentiment = "positive" then "bullish"
  else if sentiment = "negative" then "bearish"
  else "neutral"

/-- The direction factor of `correlate_news_and_patterns` (lines 102-108):
the neutral test comes first, then equality, then the conflict fallback. -/
def direction_factor (news_dir pat_dir : String) : ℚ :=
  if news_dir = "neutral" ∨ pat_dir = "neutral" then 7 / 10
  else if news_dir = pat_dir then 1
  else 4 / 10

/-- The `article_by_id` dictionary (line 73): a dict comprehension over the
article list, so for duplicate ids the last article wins; `.get` returns
`None` for an absent id. -/
def article_lookup (articles : List Article) (article_id : String) : Option Article :=
  articles.reverse.find? (fun a => a.id = article_id)

/-- One iteration of the nested loops of `correlate_news_and_patterns`
(lines 77-133) for a `(sentiment, pattern)` pair: `none` for every `continue`
(missing article, unparseable article or pattern date, lag outside
`[0, max_lag_days]`, score at or below the noise floor), otherwise the
emitted insight. -/
def score_pair (articles : List Article) (max_lag_days : Int)
    (s : ArticleSentiment) (p : PatternSignal) : Option CorrelatedInsight :=
  match article_lookup articles s.article_id with
  | none => none
  | some article =>
    match _parse_any_date article.published_at with
    | none => none
    | some art_date =>
      let news_dir := _sentiment_direction s.sentiment
      match _parse_any_date p.start_date with
      | none => none
      | some pat_start =>
        let lag_days : Int := dateDiffDays pat_start art_date
        if lag_days < 0 ∨ lag_days > max_lag_days then none
        else
          let base_score := s.impact_score * p.confidence
          let pat_dir := p.direction
          let lag_penalty : ℚ := max (4 / 10) (1 - (lag_days : ℚ) * (1 / 10))
          let corr := base_score * direction_factor news_dir pat_dir * lag_penalty
          let corr := min 1 (max 0 corr)
          if corr ≤ 5 / 100 then none
          else
            some { article_id := s.article_id, pattern_name := p.name,
                   correlation_confidence := corr, lag_days := lag_days }

/-- Stable insertion of an insight into a list sorted by descending
`correlation_confidence`: the new element goes before the first element whose
confidence is not strictly greater, so earlier-iterated elements stay first
among ties. -/
def insert_desc (x : CorrelatedInsight) : List CorrelatedInsight → List CorrelatedInsight
  | [] => [x]
  | y :: ys =>
    if x.correlation_confidence < y.correlation_confidence then y :: insert_desc x ys
    else x :: y :: ys

/-- `insights.sort(key=lambda x: x["correlation_confidence"], reverse=True)`
(line 135).  Python's `list.sort` is a stable sort; any stable sort by the
same key computes the same list, modelled here as stable insertion sort. -/
def sort_desc : List CorrelatedInsight → List CorrelatedInsight
  | [] => []
  | x :: xs => insert_desc x (sort_desc xs)

/-- `correlate_news_and_patterns` (lines 54-138): empty sentiments or
patterns short-circuit to `[]`; otherwise every `(sentiment, pattern)` pair
of the cross product is scored in iteration order and the surviving insights
are stably sorted by descending confidence.  (The source parses the article
date once per sentiment before the inner loop; scoring each pair with
`score_pair` repeats that pure computation with identical results.) -/
def correlate_news_and_patterns (articles : List Article)
    (sentiments : List ArticleSentiment) (patterns : List PatternSignal)
    (max_lag_days : Int) : List CorrelatedInsight :=
  if sentiments = [] ∨ patterns = [] then []
  else
    sort_desc (sentiments.flatMap (fun s => patterns.filterMap (score_pair articles max_lag_days s)))

/-- The pre-sort insight list of `correlate_news_and_patterns`, in
cross-product iteration order (the state of `insights` at line 135 before
sorting). -/
def raw_insights (articles : List Article) (sentiments : List ArticleSentiment)
    (patterns : List PatternSignal) (max_lag_days : Int) : List CorrelatedInsight :=
  sentiments.flatMap (fun s => patterns.filterMap (score_pair articles max_lag_days s))

/-! ## Signal-name classifiers and concrete fixtures -/

/-- The three trend-signal names `detect_patterns` can emit. -/
def is_trend_name (n : String) : Bool :=
  n == "bullish_breakout" || n == "bearish_breakdown" || n == "sideways_range"

/-- The two swing-signal names `detect_patterns` can emit. -/
def is_swing_name (n : String) : Bool :=
  n == "strong_up_swing" || n == "strong_down_swing"

/-- A price bar with all four prices equal, for concrete test series. -/
def cbar (d : String) (c : ℚ) : PriceBar :=
  { date := d, «open» := c, high := c, low := c, close := c, volume := 0 }

/-! ## Helper lemmas: list minimum/maximum and first-occurrence indexing -/

theorem foldl_min_mem (cs : List ℚ) : ∀ a : ℚ, cs.foldl min a ∈ a :: cs := by
  induction cs with
  | nil => intro a; simp
  | cons c cs ih =>
    intro a
    rw [List.foldl_cons]
    rcases List.mem_cons.mp (ih (min a c)) with h' | h'
    · rw [h']
      rcases min_choice a c with hm | hm <;> rw [hm] <;> simp
    · simp [List.mem_cons, h']

theorem listMin_mem (c : ℚ) (cs : List ℚ) : listMin c cs ∈ c :: cs :=
  foldl_min_mem cs c

/-- The bar found at the first-occurrence index of a close value has that
close value. -/
theorem getD_index_of_close (l : List PriceBar) (x : ℚ) (d : PriceBar)
    (hx : x ∈ l.map (fun p => p.close)) :
    (l.getD (index_of x (l.map (fun p => p.close))) d).close = x := by
  induction l with
  | nil => simp at hx
  | cons p ps ih =>
    by_cases hp : p.close = x
    · simp [index_of, hp]
    · have hx' : x ∈ ps.map (fun p => p.close) := by
        simp only [List.map_cons, List.mem_cons] at hx
        tauto
      simpa [index_of, hp] using ih hx'

/-! ## Helper lemmas: the stable descending insertion sort -/

theorem mem_insert_desc (x a : CorrelatedInsight) (l : List CorrelatedInsight) :
    a ∈ insert_desc x l ↔ a = x ∨ a ∈ l := by
  induction l with
  | nil => simp [insert_desc]
  | cons y ys ih =>
    by_cases h : x.correlation_confidence < y.correlation_confidence
    · simp only [insert_desc, if_pos h, List.mem_cons, ih]
      tauto
    · simp only [insert_desc, if_neg h, List.mem_cons]

theorem mem_sort_desc (a : CorrelatedInsight) (l : List CorrelatedInsight) :
    a ∈ sort_desc l ↔ a ∈ l := by
  induction l with
  | nil => simp [sort_desc]
  | cons x xs ih => simp [sort_desc, mem_insert_desc, ih]

theorem pairwise_insert_desc (x : CorrelatedInsight) (l : List CorrelatedInsight)
    (h : l.Pairwise (fun a b => b.correlation_confidence ≤ a.correlation_confidence)) :
    (insert_desc x l).Pairwise (fun a b => b.correlation_confidence ≤ a.correlation_confidence) := by
  induction l with
  | nil => simp [insert_desc]
  | cons y ys ih =>
    rcases List.pairwise_cons.mp h with ⟨hy, hys⟩
    by_cases hc : x.correlation_confidence < y.correlation_confidence
    · rw [insert_desc, if_pos hc]
      refine List.pairwise_cons.mpr ⟨?_, ih hys⟩
      intro z hz
      rcases (mem_insert_desc x z ys).mp hz with rfl | hz'
      · exact le_of_lt hc
      · exact hy z hz'
    · rw [insert_desc, if_neg hc]
      refine List.pairwise_cons.mpr ⟨?_, h⟩
      intro z hz
      rcases List.mem_cons.mp hz with rfl | hz'
      · exact le_of_not_lt hc
      · exact le_trans (hy z hz') (le_of_not_lt hc)

theorem sort_desc_pairwise (l : List CorrelatedInsight) :
    (sort_desc l).Pairwise (fun a b => b.correlation_confidence ≤ a.correlation_confidence) := by
  induction l with
  | nil => simp [sort_desc]
  | cons x xs ih => exact pairwise_insert_desc x (sort_desc xs) ih

theorem filter_insert_desc (x : CorrelatedInsight) (l : List CorrelatedInsight) (c : ℚ) :
    (insert_desc x l).filter (fun i => decide (i.correlation_confidence = c)) =
      if x.correlation_confidence = c then
        x :: l.filter (fun i => decide (i.correlation_confidence = c))
      else l.filter (fun i => decide (i.correlation_confidence = c)) := by
  induction l with
  | nil =>
    by_cases hx : x.correlation_confidence = c <;> simp [insert_desc, List.filter, hx]
  | cons y ys ih =>
    by_cases hc : x.correlation_confidence < y.correlation_confidence
    · rw [insert_desc, if_pos hc]
      by_cases hy : y.correlation_confidence = c
      · by_cases hx : x.correlation_confidence = c
        · exact absurd (hx.trans hy.symm) (ne_of_lt hc)
        · simp [List.filter_cons, hy, hx, ih]
      · simp [List.filter_cons, hy, ih]
    · rw [insert_desc, if_neg hc]
      by_cases hx : x.correlation_confidence = c <;> simp [List.filter_cons, hx]

theorem sort_desc_filter (l : List CorrelatedInsight) (c : ℚ) :
    (sort_desc l).filter (fun i => decide (i.correlation_confidence = c)) =
      l.filter (fun i => decide (i.correlation_confidence = c)) := by
  induction l with
  | nil => simp [sort_desc]
  | cons x xs ih =>
    rw [sort_desc, filter_insert_desc]
    by_cases hx : x.correlation_confidence = c <;> simp [List.filter_cons, hx, ih]

/-! ## Helper lemmas: structure of `detect_patterns` -/

theorem _trend_signal_is_trend (r : ℚ) (sd ed : String) :
    is_trend_name (_trend_signal r sd ed).name = true := by
  by_cases h1 : r ≥ 5 / 100
  · simp only [_trend_signal, if_pos h1]
    decide
  · by_cases h2 : r ≤ -(5 / 100) <;>
      simp only [_trend_signal, if_neg h1, h2, if_pos, if_neg, if_true, if_false] <;> decide

/-- The close of the bar at the min-close index is a close of the series. -/
theorem extrema_close_mem (prices : List PriceBar) (i j : Nat)
    (h : _find_local_extrema prices = (some i, some j)) (d : PriceBar) :
    (prices.getD i d).close ∈ prices.map (fun p => p.close) := by
  cases prices with
  | nil => simp [_find_local_extrema] at h
  | cons p ps =>
    have hmem : listMin p.close (ps.map (fun q => q.close)) ∈
        (p :: ps).map (fun q => q.close) := by
      simpa using listMin_mem p.close (ps.map (fun q => q.close))
    have hi : i = index_of (listMin p.close (ps.map (fun q => q.close)))
        ((p :: ps).map (fun q => q.close)) := by
      simp only [_find_local_extrema, List.map_cons, Prod.mk.injEq, Option.some.injEq] at h
      exact h.1.symm
    rw [hi]
    have := getD_index_of_close (p :: ps) (listMin p.close (ps.map (fun q => q.close))) d
      (by simpa using hmem)
    simp only [List.map_cons] at this ⊢
    rw [this]
    exact hmem

/-- With positive closes, the min-close bar has a positive close. -/
theorem extrema_low_close_pos (prices : List PriceBar) (i j : Nat)
    (h : _find_local_extrema prices = (some i, some j))
    (hpos : ∀ b ∈ prices, 0 < b.close) :
    0 < (prices.getD i default).close := by
  rcases List.mem_map.mp (extrema_close_mem prices i j h default) with ⟨b, hb, hc⟩
  rw [← hc]
  exact hpos b hb

/-- With positive closes the swing computation cannot divide by zero. -/
theorem _swing_signals_isSome (prices : List PriceBar)
    (hpos : ∀ b ∈ prices, 0 < b.close) : (_swing_signals prices).isSome = true := by
  unfold _swing_signals
  rcases hfe : _find_local_extrema prices with ⟨oi, oj⟩
  cases oi with
  | none => rfl
  | some i =>
    cases oj with
    | none => rfl
    | some j =>
      simp only
      by_cases hij : i ≠ j
      · rw [if_pos hij, if_neg (ne_of_gt (extrema_low_close_pos prices i j hfe hpos))]
        split <;> rfl
      · rw [if_neg hij]
        rfl

/-- Case analysis of a swing-signal list: empty, or a single signal whose
fields are determined by the extrema indices. -/
theorem _swing_signals_spec (prices : List PriceBar) (sw : List PatternSignal)
    (s : PatternSignal) (h : _swing_signals prices = some sw) (hs : s ∈ sw) :
    ∃ i j, _find_local_extrema prices = (some i, some j) ∧ i ≠ j
      ∧ s = { name := if i < j then "strong_up_swing" else "strong_down_swing",
              label := "Strong Price Swing",
              start_date := (prices.getD i default).date,
              end_date := (prices.getD j default).date,
              confidence := min 1
                (|((prices.getD j default).close - (prices.getD i default).close) /
                  (prices.getD i default).close| * 4),
              direction := if i < j then "bullish" else "bearish" } := by
  unfold _swing_signals at h
  rcases hfe : _find_local_extrema prices with ⟨oi, oj⟩
  rw [hfe] at h
  cases oi with
  | none =>
    rw [← Option.some.inj h] at hs
    simp at hs
  | some i =>
    cases oj with
    | none =>
      rw [← Option.some.inj h] at hs
      simp at hs
    | some j =>
      simp only at h
      by_cases hij : i ≠ j
      · rw [if_pos hij] at h
        by_cases hz : (prices.getD i default).close = 0
        · rw [if_pos hz] at h
          cases h
        · rw [if_neg hz] at h
          by_cases hret : ((prices.getD j default).close - (prices.getD i default).close) /
              (prices.getD i default).close > 8 / 100
          · rw [if_pos hret] at h
            rw [← Option.some.inj h] at hs
            rcases List.mem_singleton.mp hs with rfl
            exact ⟨i, j, rfl, hij, rfl⟩
          · rw [if_neg hret] at h
            rw [← Option.some.inj h] at hs
            simp at hs
      · rw [if_neg hij] at h
        rw [← Option.some.inj h] at hs
        simp at hs

/-- A swing-signal list is `[]` or one signal carrying a swing name. -/
theorem _swing_signals_shape (prices : List PriceBar) (sw : List PatternSignal)
    (h : _swing_signals prices = some sw) :
    sw = [] ∨ ∃ s, sw = [s] ∧ is_swing_name s.name = true := by
  unfold _swing_signals at h
  rcases hfe : _find_local_extrema prices with ⟨oi, oj⟩
  rw [hfe] at h
  cases oi with
  | none => exact Or.inl (Option.some.inj h).symm
  | some i =>
    cases oj with
    | none => exact Or.inl (Option.some.inj h).symm
    | some j =>
      simp only at h
      by_cases hij : i ≠ j
      · rw [if_pos hij] at h
        by_cases hz : (prices.getD i default).close = 0
        · rw [if_pos hz] at h
          cases h
        · rw [if_neg hz] at h
          by_cases hret : ((prices.getD j default).close - (prices.getD i default).close) /
              (prices.getD i default).close > 8 / 100
          · rw [if_pos hret] at h
            refine Or.inr ⟨_, (Option.some.inj h).symm, ?_⟩
            show is_swing_name (if i < j then "strong_up_swing" else "strong_down_swing") = true
            rcases Nat.lt_or_ge i j with hlt | hge
            · rw [if_pos hlt]
              decide
            · rw [if_neg (Nat.not_lt.mpr hge)]
              decide
          · rw [if_neg hret] at h
            exact Or.inl (Option.some.inj h).symm
      · rw [if_neg hij] at h
        exact Or.inl (Option.some.inj h).symm

/-- Structure of a successful `detect_patterns` call: short series give `[]`;
otherwise the result is the trend signal followed by the swing list. -/
theorem detect_patterns_cases (prices : List PriceBar) (l : List PatternSignal)
    (h : detect_patterns prices = some l) :
    (prices.length < 2 ∧ l = [])
    ∨ ∃ p0 p1 rest sw, prices = p0 :: p1 :: rest ∧ _swing_signals prices = some sw
        ∧ l = _trend_signal (_compute_return prices) p0.date ((rest.getLastD p1).date) :: sw := by
  match prices with
  | [] =>
    left
    exact ⟨by simp, by simpa [detect_patterns] using h.symm⟩
  | [p] =>
    left
    exact ⟨by simp, by simpa [detect_patterns] using h.symm⟩
  | p0 :: p1 :: rest =>
    right
    have h' : (match _swing_signals (p0 :: p1 :: rest) with
        | none => none
        | some swing =>
          some (_trend_signal (_compute_return (p0 :: p1 :: rest))
            p0.date ((rest.getLastD p1).date) :: swing)) = some l := h
    rcases hsw : _swing_signals (p0 :: p1 :: rest) with _ | sw
    · rw [hsw] at h'
      cases h'
    · rw [hsw] at h'
      simp only [Option.some.injEq] at h'
      exact ⟨p0, p1, rest, sw, rfl, rfl, h'.symm⟩

/-! ## Helper lemmas: structure of `score_pair` -/

/-- Every insight emitted by the loop body has its confidence clamped to
`[0, 1]` and above the noise floor, and its lag inside `[0, max_lag_days]`. -/
theorem score_pair_inv (articles : List Article) (max_lag_days : Int)
    (s : ArticleSentiment) (p : PatternSignal) (i : CorrelatedInsight)
    (h : score_pair articles max_lag_days s p = some i) :
    0 ≤ i.correlation_confidence ∧ i.correlation_confidence ≤ 1 ∧
      5 / 100 < i.correlation_confidence ∧
      0 ≤ i.lag_days ∧ i.lag_days ≤ max_lag_days := by
  unfold score_pair at h
  split at h
  · cases h
  · split at h
    · cases h
    · split at h
      · cases h
      · dsimp only at h
        split at h
        · cases h
        · rename_i hlag
          split at h
          · cases h
          · rename_i hfloor
            push_neg at hlag
            rw [← Option.some.inj h]
            exact ⟨le_min (by norm_num) (le_max_left 0 _), min_le_left 1 _,
              lt_of_not_le hfloor, hlag.1, hlag.2⟩

/-! ## Claims about the Pattern Detector -/

/-- C1 (counterexample): a well-typed series with non-negative closes on
which `detect_patterns` does **not** return normally.  The first close is 0,
so the documented guard makes `total_return` 0, but the swing computation
divides by the minimum close 0 and the `ZeroDivisionError` escapes
(modelled by `none`). -/
theorem C1_counterexample :
    detect_patterns [cbar "2024-01-01" 0, cbar "2024-01-02" 10] = none := by
  decide

/-- C1 (amended): `detect_patterns` returns normally on every series whose
closes are all positive; with a zero close the swing-return division can
raise, so non-negativity alone is not enough. -/
theorem C1_detect_no_raise (prices : List PriceBar)
    (hpos : ∀ b ∈ prices, 0 < b.close) :
    (detect_patterns prices).isSome = true := by
  match prices with
  | [] => rfl
  | [p] => rfl
  | p0 :: p1 :: rest =>
    have hsome := _swing_signals_isSome (p0 :: p1 :: rest) hpos
    have h' : detect_patterns (p0 :: p1 :: rest) =
        (match _swing_signals (p0 :: p1 :: rest) with
          | none => none
          | some swing =>
            some (_trend_signal (_compute_return (p0 :: p1 :: rest))
              p0.date ((rest.getLastD p1).date) :: swing)) := rfl
    rcases hswe : _swing_signals (p0 :: p1 :: rest) with _ | sw
    · rw [hswe] at hsome
      cases hsome
    · rw [h', hswe]
      rfl

/-- C1 (witness): a concrete all-positive series on which the amended
theorem applies. -/
theorem C1_detect_no_raise_witness :
    (∀ b ∈ [cbar "2024-01-01" 1, cbar "2024-01-02" 2], 0 < b.close)
    ∧ (detect_patterns [cbar "2024-01-01" 1, cbar "2024-01-02" 2]).isSome = true :=
  ⟨by decide, C1_detect_no_raise _ (by decide)⟩

/-- C2 (counterexample): on closes 100, 90 the swing signal is a
`strong_down_swing` whose `start_date` ("2024-01-02", the minimum-close bar)
is chronologically **later** than its `end_date` ("2024-01-01", the
maximum-close bar), refuting the claim that `start_date` is the earlier of
the two extrema dates. -/
theorem C2_counterexample :
    detect_patterns [cbar "2024-01-01" 100, cbar "2024-01-02" 90] =
      some [{ name := "bearish_breakdown", label := "Bearish Breakdown / Downtrend",
              start_date := "2024-01-01", end_date := "2024-01-02",
              confidence := 1 / 2, direction := "bearish" },
            { name := "strong_down_swing", label := "Strong Price Swing",
              start_date := "2024-01-02", end_date := "2024-01-01",
              confidence := 4 / 9, direction := "bearish" }]
    ∧ _parse_any_date "2024-01-02" = some ⟨2024, 1, 2⟩
    ∧ _parse_any_date "2024-01-01" = some ⟨2024, 1, 1⟩
    ∧ toOrdinal ⟨2024, 1, 1⟩ < toOrdinal ⟨2024, 1, 2⟩ := by
  refine ⟨?_, by decide, by decide, by decide⟩
  norm_num [detect_patterns, _swing_signals, _trend_signal, _compute_return,
    _find_local_extrema, listMin, listMax, index_of, cbar, min_def, abs]

/-- C2 (amended): the swing signal's `start_date` is always the
minimum-close bar's date and its `end_date` the maximum-close bar's date; in
the `strong_up_swing` case the minimum-close bar precedes the maximum-close
bar (so for date-ascending input `start_date` is the earlier date), but in
the `strong_down_swing` case the maximum-close bar precedes the
minimum-close bar, so `start_date` is the chronologically later extremum and
the `start_date ≤ end_date` invariant fails. -/
theorem C2_swing_dates (prices : List PriceBar) (l : List PatternSignal)
    (s : PatternSignal) (h : detect_patterns prices = some l) (hs : s ∈ l)
    (hn : s.name = "strong_up_swing" ∨ s.name = "strong_down_swing") :
    ∃ i j, _find_local_extrema prices = (some i, some j) ∧ i ≠ j
      ∧ s.start_date = (prices.getD i default).date
      ∧ s.end_date = (prices.getD j default).date
      ∧ (s.name = "strong_up_swing" → i < j)
      ∧ (s.name = "strong_down_swing" → j < i) := by
  rcases detect_patterns_cases prices l h with ⟨_, rfl⟩ | ⟨p0, p1, rest, sw, _, hsw, rfl⟩
  · simp at hs
  · rcases List.mem_cons.mp hs with rfl | hmem
    · exfalso
      have ht := _trend_signal_is_trend (_compute_return prices) p0.date ((rest.getLastD p1).date)
      rcases hn with hname | hname <;> rw [hname] at ht <;> exact absurd ht (by decide)
    · rcases _swing_signals_spec prices sw s hsw hmem with ⟨i, j, hfe, hij, hsrec⟩
      have hname : s.name = if i < j then "strong_up_swing" else "strong_down_swing" := by
        rw [hsrec]
      have hsd : s.start_date = (prices.getD i default).date := by
        rw [hsrec]
      have hed : s.end_date = (prices.getD j default).date := by
        rw [hsrec]
      refine ⟨i, j, hfe, hij, hsd, hed, ?_, ?_⟩
      · intro hup
        rw [hname] at hup
        rcases Nat.lt_or_ge i j with hlt | hge
        · exact hlt
        · rw [if_neg (Nat.not_lt.mpr hge)] at hup
          exact absurd hup (by decide)
      · intro hdn
        rw [hname] at hdn
        rcases Nat.lt_or_ge i j with hlt | hge
        · rw [if_pos hlt] at hdn
          exact absurd hdn (by decide)
        · exact Nat.lt_of_le_of_ne hge (Ne.symm hij)

/-- C2 (witness): concrete up-swing series; the amended theorem applies and
the extrema indices are ordered `i < j`. -/
theorem C2_swing_dates_witness :
    detect_patterns [cbar "2024-01-01" 100, cbar "2024-01-02" 121] =
      some [{ name := "bullish_breakout", label := "Bullish Breakout / Uptrend",
              start_date := "2024-01-01", end_date := "2024-01-02",
              confidence := 1, direction := "bullish" },
            { name := "strong_up_swing", label := "Strong Price Swing",
              start_date := "2024-01-01", end_date := "2024-01-02",
              confidence := 21 / 25, direction := "bullish" }]
    ∧ ∃ i j, _find_local_extrema [cbar "2024-01-01" 100, cbar "2024-01-02" 121]
          = (some i, some j) ∧ i ≠ j
        ∧ ({ name := "strong_up_swing", label := "Strong Price Swing",
             start_date := "2024-01-01", end_date := "2024-01-02",
             confidence := 21 / 25, direction := "bullish" } : PatternSignal).start_date
            = (([cbar "2024-01-01" 100, cbar "2024-01-02" 121].getD i default)).date
        ∧ ({ name := "strong_up_swing", label := "Strong Price Swing",
             start_date := "2024-01-01", end_date := "2024-01-02",
             confidence := 21 / 25, direction := "bullish" } : PatternSignal).end_date
            = (([cbar "2024-01-01" 100, cbar "2024-01-02" 121].getD j default)).date
        ∧ (({ name := "strong_up_swing", label := "Strong Price Swing",
              start_date := "2024-01-01", end_date := "2024-01-02",
              confidence := 21 / 25, direction := "bullish" } : PatternSignal).name
              = "strong_up_swing" → i < j)
        ∧ (({ name := "strong_up_swing", label := "Strong Price Swing",
              start_date := "2024-01-01", end_date := "2024-01-02",
              confidence := 21 / 25, direction := "bullish" } : PatternSignal).name
              = "strong_down_swing" → j < i) := by
  have h : detect_patterns [cbar "2024-01-01" 100, cbar "2024-01-02" 121] =
      some [{ name := "bullish_breakout", label := "Bullish Breakout / Uptrend",
              start_date := "2024-01-01", end_date := "2024-01-02",
              confidence := 1, direction := "bullish" },
            { name := "strong_up_swing", label := "Strong Price Swing",
              start_date := "2024-01-01", end_date := "2024-01-02",
              confidence := 21 / 25, direction := "bullish" }] := by
    norm_num [detect_patterns, _swing_signals, _trend_signal, _compute_return,
      _find_local_extrema, listMin, listMax, index_of, cbar, min_def, abs]
  exact ⟨h, C2_swing_dates _ _ _ h (by simp) (Or.inl rfl)⟩

/-- Scenario B price series: close values 100, 110, 121 (a ≥5% up-move). -/
def c4_prices : List PriceBar :=
  [cbar "2024-01-01" 100, cbar "2024-01-02" 110, cbar "2024-01-03" 121]

/-- C4: on close values 100, 110, 121 `detect_patterns` returns exactly one
`bullish_breakout` signal, with direction bullish and confidence
`min(1.0, 0.21*5) = 1.0`.  (The call also emits a `strong_up_swing` signal;
the claim constrains the breakout signal.) -/
theorem C4_bullish_scenario :
    ((detect_patterns c4_prices).getD []).filter (fun s => s.name == "bullish_breakout")
      = [{ name := "bullish_breakout", label := "Bullish Breakout / Uptrend",
           start_date := "2024-01-01", end_date := "2024-01-03",
           confidence := 1, direction := "bullish" }]
    ∧ (1 : ℚ) = min 1 ((21 / 100) * 5) := by
  have h : detect_patterns c4_prices =
      some [{ name := "bullish_breakout", label := "Bullish Breakout / Uptrend",
              start_date := "2024-01-01", end_date := "2024-01-03",
              confidence := 1, direction := "bullish" },
            { name := "strong_up_swing", label := "Strong Price Swing",
              start_date := "2024-01-01", end_date := "2024-01-03",
              confidence := 21 / 25, direction := "bullish" }] := by
    norm_num [c4_prices, detect_patterns, _swing_signals, _trend_signal, _compute_return,
      _find_local_extrema, listMin, listMax, index_of, cbar, min_def, abs]
  rw [h]
  refine ⟨?_, by norm_num [min_def]⟩
  simp [List.filter]

/-- C5: for every series with at least two bars, when `detect_patterns`
returns, its first signal is the trend classification: with
`total_return r = (last.close − first.close)/first.close` (0 for a zero
first close), `r ≥ 0.05` gives `bullish_breakout` (bullish,
confidence `min 1 (|r|*5)`), `r ≤ −0.05` gives `bearish_breakdown`
(bearish, same confidence), and otherwise `sideways_range` (neutral,
confidence 0.6); `start_date`/`end_date` are the first/last bar dates. -/
theorem C5_trend_classification (p0 p1 : PriceBar) (rest : List PriceBar)
    (l : List PatternSignal) (h : detect_patterns (p0 :: p1 :: rest) = some l)
    (r : ℚ)
    (hr : r = if p0.close = 0 then 0 else ((rest.getLastD p1).close - p0.close) / p0.close) :
    l.head? = some
      (if r ≥ 5 / 100 then
        { name := "bullish_breakout", label := "Bullish Breakout / Uptrend",
          start_date := p0.date, end_date := (rest.getLastD p1).date,
          confidence := min 1 (|r| * 5), direction := "bullish" }
      else if r ≤ -(5 / 100) then
        { name := "bearish_breakdown", label := "Bearish Breakdown / Downtrend",
          start_date := p0.date, end_date := (rest.getLastD p1).date,
          confidence := min 1 (|r| * 5), direction := "bearish" }
      else
        { name := "sideways_range", label := "Sideways / Range-Bound",
          start_date := p0.date, end_date := (rest.getLastD p1).date,
          confidence := 6 / 10, direction := "neutral" }) := by
  subst hr
  rcases detect_patterns_cases _ l h with ⟨hlen, _⟩ | ⟨q0, q1, qrest, sw, hpr, _, rfl⟩
  · simp at hlen
    omega
  · simp only [List.cons.injEq] at hpr
    obtain ⟨rfl, rfl, rfl⟩ := hpr
    rfl

/-- C5 (witness): the sideways case on closes 100, 101. -/
theorem C5_trend_classification_witness :
    detect_patterns [cbar "2024-01-01" 100, cbar "2024-01-02" 101] =
      some [{ name := "sideways_range", label := "Sideways / Range-Bound",
              start_date := "2024-01-01", end_date := "2024-01-02",
              confidence := 6 / 10, direction := "neutral" }]
    ∧ (1 / 100 : ℚ) = (if (cbar "2024-01-01" 100).close = 0 then 0
        else ((([] : List PriceBar).getLastD (cbar "2024-01-02" 101)).close
          - (cbar "2024-01-01" 100).close) / (cbar "2024-01-01" 100).close)
    ∧ ([{ name := "sideways_range", label := "Sideways / Range-Bound",
          start_date := "2024-01-01", end_date := "2024-01-02",
          confidence := 6 / 10, direction := "neutral" }] : List PatternSignal).head? = some
      (if (1 / 100 : ℚ) ≥ 5 / 100 then
        { name := "bullish_breakout", label := "Bullish Breakout / Uptrend",
          start_date := "2024-01-01", end_date := "2024-01-02",
          confidence := min 1 (|(1 / 100 : ℚ)| * 5), direction := "bullish" }
      else if (1 / 100 : ℚ) ≤ -(5 / 100) then
        { name := "bearish_breakdown", label := "Bearish Breakdown / Downtrend",
          start_date := "2024-01-01", end_date := "2024-01-02",
          confidence := min 1 (|(1 / 100 : ℚ)| * 5), direction := "bearish" }
      else
        { name := "sideways_range", label := "Sideways / Range-Bound",
          start_date := "2024-01-01", end_date := "2024-01-02",
          confidence := 6 / 10, direction := "neutral" }) := by
  have h : detect_patterns [cbar "2024-01-01" 100, cbar "2024-01-02" 101] =
      some [{ name := "sideways_range", label := "Sideways / Range-Bound",
              start_date := "2024-01-01", end_date := "2024-01-02",
              confidence := 6 / 10, direction := "neutral" }] := by
    norm_num [detect_patterns, _swing_signals, _trend_signal, _compute_return,
      _find_local_extrema, listMin, listMax, index_of, cbar, min_def, abs]
  exact ⟨h, by norm_num [cbar],
    C5_trend_classification _ _ _ _ h (1 / 100) (by norm_num [cbar])⟩

/-- C9: a successful `detect_patterns` call returns at most two signals —
nothing, one trend-named signal, or a trend-named signal followed by a
swing-named signal. -/
theorem C9_cardinality_order (prices : List PriceBar) (l : List PatternSignal)
    (h : detect_patterns prices = some l) :
    l = []
    ∨ (∃ t, l = [t] ∧ is_trend_name t.name = true)
    ∨ (∃ t s, l = [t, s] ∧ is_trend_name t.name = true ∧ is_swing_name s.name = true) := by
  rcases detect_patterns_cases prices l h with ⟨_, rfl⟩ | ⟨p0, p1, rest, sw, _, hsw, rfl⟩
  · exact Or.inl rfl
  · rcases _swing_signals_shape prices sw hsw with rfl | ⟨s, rfl, hsn⟩
    · exact Or.inr (Or.inl ⟨_, rfl, _trend_signal_is_trend _ _ _⟩)
    · exact Or.inr (Or.inr ⟨_, s, rfl, _trend_signal_is_trend _ _ _, hsn⟩)

/-- The two signals `detect_patterns` emits for closes 100, 90. -/
def c9w_signals : List PatternSignal :=
  [{ name := "bearish_breakdown", label := "Bearish Breakdown / Downtrend",
     start_date := "2024-01-01", end_date := "2024-01-02",
     confidence := 1 / 2, direction := "bearish" },
   { name := "strong_down_swing", label := "Strong Price Swing",
     start_date := "2024-01-02", end_date := "2024-01-01",
     confidence := 4 / 9, direction := "bearish" }]

/-- C9 (witness): the cardinality theorem applied to a concrete two-signal
run. -/
theorem C9_cardinality_order_witness :
    detect_patterns [cbar "2024-01-01" 100, cbar "2024-01-02" 90] = some c9w_signals
    ∧ (c9w_signals = []
      ∨ (∃ t, c9w_signals = [t] ∧ is_trend_name t.name = true)
      ∨ (∃ t s, c9w_signals = [t, s] ∧ is_trend_name t.name = true
          ∧ is_swing_name s.name = true)) := by
  have h : detect_patterns [cbar "2024-01-01" 100, cbar "2024-01-02" 90] =
      some c9w_signals := by
    norm_num [c9w_signals, detect_patterns, _swing_signals, _trend_signal, _compute_return,
      _find_local_extrema, listMin, listMax, index_of, cbar, min_def, abs]
  exact ⟨h, C9_cardinality_order _ _ h⟩

/-- C10: `detect_patterns` returns the empty list exactly on series with
fewer than 2 bars — any shorter series gives `some []`, and whenever the
call returns a list, that list is empty iff the series had fewer than
2 bars (with at least 2 bars a trend signal is always emitted). -/
theorem C10_empty_iff (prices : List PriceBar) :
    (prices.length < 2 → detect_patterns prices = some [])
    ∧ (∀ l, detect_patterns prices = some l → (l = [] ↔ prices.length < 2)) := by
  constructor
  · intro hlen
    match prices, hlen with
    | [], _ => rfl
    | [p], _ => rfl
    | p0 :: p1 :: rest, hlen => exact absurd hlen (by simp)
  · intro l h
    rcases detect_patterns_cases prices l h with ⟨hlen, rfl⟩ | ⟨p0, p1, rest, sw, rfl, _, rfl⟩
    · simp [hlen]
    · constructor
      · intro hl
        cases hl
      · intro hlen
        simp at hlen
        omega

/-- C10 (witness): the empty-result equivalence at concrete inputs. -/
theorem C10_empty_iff_witness :
    detect_patterns [cbar "2024-01-01" 5] = some []
    ∧ (([] : List PatternSignal) = [] ↔ ([cbar "2024-01-01" 5] : List PriceBar).length < 2) :=
  ⟨(C10_empty_iff [cbar "2024-01-01" 5]).1 (by decide),
   (C10_empty_iff [cbar "2024-01-01" 5]).2 [] ((C10_empty_iff [cbar "2024-01-01" 5]).1 (by decide))⟩

/-! ## Claims about the Correlation Scorer -/

/-- Fixture article for the both-neutral counterexample. -/
def c3_article : Article :=
  { id := "a1", ticker := "TCK", title := "", url := "",
    published_at := "2024-01-01", source := "" }

/-- Fixture sentiment labelled neutral with impact 1. -/
def c3_sentiment : ArticleSentiment :=
  { article_id := "a1", sentiment := "neutral", confidence := 1,
    event_tags := [], impact_score := 1 }

/-- Fixture neutral pattern with confidence 1 starting the same day. -/
def c3_pattern : PatternSignal :=
  { name := "sideways_range", label := "Sideways / Range-Bound",
    start_date := "2024-01-01", end_date := "2024-01-01",
    confidence := 1, direction := "neutral" }

/-- C3 (counterexample): when both the news direction and the pattern
direction are neutral, the code takes the either-side-neutral branch first,
so the factor is 0.7 — not 1.0 as the claim asserts for equal directions.
On a concrete both-neutral pair with impact 1, pattern confidence 1 and
lag 0, `correlate_news_and_patterns` emits confidence 0.7; a factor of 1.0
would have produced 1.0. -/
theorem C3_counterexample :
    _sentiment_direction "neutral" = "neutral"
    ∧ direction_factor "neutral" "neutral" = 7 / 10
    ∧ direction_factor "neutral" "neutral" ≠ 1
    ∧ correlate_news_and_patterns [c3_article] [c3_sentiment] [c3_pattern] 7
        = [{ article_id := "a1", pattern_name := "sideways_range",
             correlation_confidence := 7 / 10, lag_days := 0 }] := by
  have hpd : _parse_any_date "2024-01-01" = some ⟨2024, 1, 1⟩ := by decide
  have hdd : dateDiffDays ⟨2024, 1, 1⟩ ⟨2024, 1, 1⟩ = 0 := by decide
  have hlook : article_lookup [c3_article] "a1" = some c3_article := by decide
  simp only [c3_article] at hlook
  have hs : score_pair [c3_article] 7 c3_sentiment c3_pattern
      = some { article_id := "a1", pattern_name := "sideways_range",
               correlation_confidence := 7 / 10, lag_days := 0 } := by
    simp only [score_pair, c3_sentiment, c3_pattern, hlook, c3_article, hpd, hdd]
    norm_num [_sentiment_direction, direction_factor, min_def, max_def]
  refine ⟨rfl, by norm_num [direction_factor], by norm_num [direction_factor], ?_⟩
  simp only [correlate_news_and_patterns]
  rw [if_neg (by simp)]
  simp [hs, sort_desc, insert_desc]

/-- C3 (amended): the direction factor is 0.7 whenever either side is
neutral — including the both-neutral case — 1.0 only when the two directions
are equal and non-neutral, and 0.4 when they actively conflict; the
sentiment mapping is positive → bullish, negative → bearish,
neutral → neutral. -/
theorem C3_direction_factor (news_dir pat_dir : String)
    (hn : news_dir = "bullish" ∨ news_dir = "bearish" ∨ news_dir = "neutral")
    (hp : pat_dir = "bullish" ∨ pat_dir = "bearish" ∨ pat_dir = "neutral") :
    (_sentiment_direction "positive" = "bullish"
      ∧ _sentiment_direction "negative" = "bearish"
      ∧ _sentiment_direction "neutral" = "neutral")
    ∧ ((news_dir = "neutral" ∨ pat_dir = "neutral") →
        direction_factor news_dir pat_dir = 7 / 10)
    ∧ (news_dir ≠ "neutral" → pat_dir ≠ "neutral" → news_dir = pat_dir →
        direction_factor news_dir pat_dir = 1)
    ∧ (news_dir ≠ "neutral" → pat_dir ≠ "neutral" → news_dir ≠ pat_dir →
        direction_factor news_dir pat_dir = 4 / 10) := by
  refine ⟨⟨rfl, rfl, rfl⟩, ?_, ?_, ?_⟩
  · intro hne
    rcases hne with rfl | rfl
    · simp [direction_factor]
    · simp [direction_factor]
  · intro h1 h2 h3
    subst h3
    rcases hn with rfl | rfl | rfl
    · simp [direction_factor]
    · simp [direction_factor]
    · exact absurd rfl h1
  · intro h1 h2 h3
    rcases hn with rfl | rfl | rfl <;> rcases hp with rfl | rfl | rfl <;>
      first
        | exact absurd rfl h1
        | exact absurd rfl h2
        | exact absurd rfl h3
        | simp [direction_factor]

/-- C3 (witness): the amended factor classification at the conflicting pair
(bullish news, bearish pattern). -/
theorem C3_direction_factor_witness :
    (_sentiment_direction "positive" = "bullish"
      ∧ _sentiment_direction "negative" = "bearish"
      ∧ _sentiment_direction "neutral" = "neutral")
    ∧ ((("bullish" : String) = "neutral" ∨ ("bearish" : String) = "neutral") →
        direction_factor "bullish" "bearish" = 7 / 10)
    ∧ (("bullish" : String) ≠ "neutral" → ("bearish" : String) ≠ "neutral" →
        ("bullish" : String) = "bearish" → direction_factor "bullish" "bearish" = 1)
    ∧ (("bullish" : String) ≠ "neutral" → ("bearish" : String) ≠ "neutral" →
        ("bullish" : String) ≠ "bearish" → direction_factor "bullish" "bearish" = 4 / 10) :=
  C3_direction_factor "bullish" "bearish" (Or.inl rfl) (Or.inr (Or.inl rfl))

/-- C6: a pair whose dates both parse produces no insight when the lag is
negative or exceeds `max_lag_days` — the loop body skips it and the
single-pair call returns nothing. -/
theorem C6_lag_window (articles : List Article) (max_lag_days : Int)
    (s : ArticleSentiment) (p : PatternSignal) (a : Article) (da dp : Date)
    (hlook : article_lookup articles s.article_id = some a)
    (hda : _parse_any_date a.published_at = some da)
    (hdp : _parse_any_date p.start_date = some dp)
    (hlag : dateDiffDays dp da < 0 ∨ dateDiffDays dp da > max_lag_days) :
    score_pair articles max_lag_days s p = none
    ∧ correlate_news_and_patterns articles [s] [p] max_lag_days = [] := by
  have h1 : score_pair articles max_lag_days s p = none := by
    simp only [score_pair, hlook, hda, hdp]
    rw [if_pos hlag]
  refine ⟨h1, ?_⟩
  simp only [correlate_news_and_patterns]
  rw [if_neg (by simp)]
  simp [h1, sort_desc]

/-- Fixture article published 2024-01-01, for the out-of-window witness. -/
def c6_article : Article :=
  { id := "a1", ticker := "TCK", title := "", url := "",
    published_at := "2024-01-01", source := "" }

/-- Fixture positive sentiment with impact 1. -/
def c6_sentiment : ArticleSentiment :=
  { article_id := "a1", sentiment := "positive", confidence := 1,
    event_tags := [], impact_score := 1 }

/-- Fixture pattern starting 10 days after the article. -/
def c6_pattern : PatternSignal :=
  { name := "p", label := "P", start_date := "2024-01-11",
    end_date := "2024-01-11", confidence := 1, direction := "bullish" }

/-- C6 (witness): lag 10 with the default window 7 produces no insight. -/
theorem C6_lag_window_witness :
    score_pair [c6_article] 7 c6_sentiment c6_pattern = none
    ∧ correlate_news_and_patterns [c6_article] [c6_sentiment] [c6_pattern] 7 = [] :=
  C6_lag_window [c6_article] 7 c6_sentiment c6_pattern c6_article ⟨2024, 1, 1⟩ ⟨2024, 1, 11⟩
    (by decide) (by decide) (by decide) (Or.inr (by decide))

/-- C7: every emitted insight has `correlation_confidence` in `[0, 1]` and
strictly above the 0.05 noise floor. -/
theorem C7_confidence_bounds (articles : List Article)
    (sentiments : List ArticleSentiment) (patterns : List PatternSignal)
    (max_lag_days : Int) (i : CorrelatedInsight)
    (hi : i ∈ correlate_news_and_patterns articles sentiments patterns max_lag_days) :
    0 ≤ i.correlation_confidence ∧ i.correlation_confidence ≤ 1
      ∧ 5 / 100 < i.correlation_confidence := by
  unfold correlate_news_and_patterns at hi
  split at hi
  · simp at hi
  · rw [mem_sort_desc] at hi
    rcases List.mem_flatMap.mp hi with ⟨s, hsmem, hip⟩
    rcases List.mem_filterMap.mp hip with ⟨p, hpmem, hsp⟩
    have hb := score_pair_inv articles max_lag_days s p i hsp
    exact ⟨hb.1, hb.2.1, hb.2.2.1⟩

/-- Fixture article for the in-window witness pair. -/
def c7_article : Article :=
  { id := "a1", ticker := "TCK", title := "", url := "",
    published_at := "2024-01-01", source := "" }

/-- Fixture positive sentiment with impact 0.8. -/
def c7_sentiment : ArticleSentiment :=
  { article_id := "a1", sentiment := "positive", confidence := 9 / 10,
    event_tags := [], impact_score := 8 / 10 }

/-- Fixture bullish pattern with confidence 0.6 starting the same day. -/
def c7_pattern : PatternSignal :=
  { name := "bullish_breakout", label := "Bullish Breakout / Uptrend",
    start_date := "2024-01-01", end_date := "2024-01-03",
    confidence := 6 / 10, direction := "bullish" }

/-- The insight the witness pair produces: confidence 0.48, lag 0. -/
def c7_insight : CorrelatedInsight :=
  { article_id := "a1", pattern_name := "bullish_breakout",
    correlation_confidence := 12 / 25, lag_days := 0 }

/-- C7 (witness): the emitted insight of a concrete run (confidence 0.48)
satisfies the bounds. -/
theorem C7_confidence_bounds_witness :
    c7_insight ∈ correlate_news_and_patterns [c7_article] [c7_sentiment] [c7_pattern] 7
    ∧ (0 ≤ c7_insight.correlation_confidence
      ∧ c7_insight.correlation_confidence ≤ 1
      ∧ 5 / 100 < c7_insight.correlation_confidence) := by
  have hpd : _parse_any_date "2024-01-01" = some ⟨2024, 1, 1⟩ := by decide
  have hdd : dateDiffDays ⟨2024, 1, 1⟩ ⟨2024, 1, 1⟩ = 0 := by decide
  have hlook : article_lookup [c7_article] "a1" = some c7_article := by decide
  simp only [c7_article] at hlook
  have hdf : direction_factor (_sentiment_direction "positive") "bullish" = 1 := by
    simp [_sentiment_direction, direction_factor]
  have hs : score_pair [c7_article] 7 c7_sentiment c7_pattern = some c7_insight := by
    simp only [score_pair, c7_sentiment, c7_pattern, hlook, c7_article, hpd, hdd, c7_insight,
      hdf]
    norm_num [min_def, max_def]
  have hm : correlate_news_and_patterns [c7_article] [c7_sentiment] [c7_pattern] 7
      = [c7_insight] := by
    simp only [correlate_news_and_patterns]
    rw [if_neg (by simp)]
    simp [hs, sort_desc, insert_desc]
  have hmem : c7_insight
      ∈ correlate_news_and_patterns [c7_article] [c7_sentiment] [c7_pattern] 7 := by
    rw [hm]
    exact List.mem_singleton.mpr rfl
  exact ⟨hmem, C7_confidence_bounds _ _ _ _ _ hmem⟩

/-- C8: the output of `correlate_news_and_patterns` is sorted non-increasing
by `correlation_confidence`, and for every confidence value the insights
carrying it appear in the same relative order as in the pre-sort
cross-product iteration list (`raw_insights`) — the sort is stable. -/
theorem C8_sorted_stable (articles : List Article)
    (sentiments : List ArticleSentiment) (patterns : List PatternSignal)
    (max_lag_days : Int) :
    (correlate_news_and_patterns articles sentiments patterns max_lag_days).Pairwise
        (fun a b => b.correlation_confidence ≤ a.correlation_confidence)
    ∧ ∀ c : ℚ,
        (correlate_news_and_patterns articles sentiments patterns max_lag_days).filter
            (fun i => decide (i.correlation_confidence = c))
          = (raw_insights articles sentiments patterns max_lag_days).filter
              (fun i => decide (i.correlation_confidence = c)) := by
  unfold correlate_news_and_patterns raw_insights
  by_cases hguard : sentiments = [] ∨ patterns = []
  · rw [if_pos hguard]
    have hraw : (sentiments.flatMap
        (fun s => patterns.filterMap (score_pair articles max_lag_days s))) = [] := by
      rcases hguard with rfl | rfl
      · rfl
      · induction sentiments with
        | nil => rfl
        | cons s ss ih =>
          simp only [List.flatMap_cons, List.filterMap_nil, List.nil_append]
          simp only [List.filterMap_nil] at ih
          exact ih
    rw [hraw]
    exact ⟨List.Pairwise.nil, fun c => rfl⟩
  · rw [if_neg hguard]
    exact ⟨sort_desc_pairwise _, fun c => sort_desc_filter _ c⟩

end Capstone
